import Mathlib

/-!
Verification development for the ananta repository (remote multi-host SSH
command runner).  The definitions below are a shallow embedding of the code
in `ananta/ssh.py` and `ananta/tui.py`; effects (network attempts, queue
puts, sleeps, `conn.close()` calls) are made explicit as data so that the
control flow of each Python function can be stated and proved about.
-/

/-! ## Embedding of `ananta/ssh.py` : `retry_connect` -/

/-- The asyncssh disconnect code `asyncssh.DISC_KEY_EXCHANGE_FAILED`
(SSH_DISCONNECT_KEY_EXCHANGE_FAILED from RFC 4253). -/
def DISC_KEY_EXCHANGE_FAILED : Int := 3

/-- The keyword arguments splatted into `asyncssh.connect`: either the
restricted cipher/MAC suites or absent (the empty dict `{}` after
relaxation). -/
structure AlgorithmOptions where
  encryption_algs : Option (List String)
  mac_algs : Option (List String)
deriving DecidableEq, Repr

/-- The initial `algorithm_options` dict of `retry_connect`
(`ananta/ssh.py` lines 17-24). -/
def initialAlgorithmOptions : AlgorithmOptions :=
  { encryption_algs :=
      some ["chacha20-poly1305@openssh.com", "aes128-ctr", "aes256-ctr"],
    mac_algs := some ["hmac-sha2-256", "hmac-sha1"] }

/-- The empty dict `algorithm_options = {}` set after a key-exchange
failure: no algorithm restriction is passed to `asyncssh.connect`. -/
def emptyAlgorithmOptions : AlgorithmOptions :=
  { encryption_algs := none, mac_algs := none }

/-- What one call of `asyncio.wait_for(asyncssh.connect(...), timeout)` does:
succeed, raise `asyncssh.Error` (with its optional `code` attribute and its
`str` rendering), or raise `asyncio.TimeoutError`. -/
inductive ConnectResult where
  | success
  | sshError (code : Option Int) (msg : String)
  | timeout
deriving DecidableEq, Repr

/-- The value bound to `last_error` in `retry_connect`. -/
inductive LastError where
  | sshError (code : Option Int) (msg : String)
  | timeout
deriving DecidableEq, Repr

/-- Conversion of a failed attempt's exception to the stored `last_error`. -/
def toLastError : ConnectResult → Option LastError
  | ConnectResult.success => none
  | ConnectResult.sshError code msg => some (LastError.sshError code msg)
  | ConnectResult.timeout => some LastError.timeout

/-- One loop iteration of `retry_connect`, as observed from outside:
which `algorithm_options` were passed to `asyncssh.connect`, what the
attempt did, and how long `asyncio.sleep` was awaited afterwards
(`none` when no sleep happened: success, or last attempt). -/
structure AttemptRecord where
  attempt : Nat
  optsUsed : AlgorithmOptions
  result : ConnectResult
  sleptAfter : Option Nat
deriving DecidableEq, Repr

/-- The result of `retry_connect`: either the connection returned from a
given attempt index, or the raised `ConnectionError` with its message. -/
inductive RetryOutcome where
  | connected (attempt : Nat)
  | connectionError (msg : String)
deriving DecidableEq, Repr

/-- The `raise ConnectionError(...)` epilogue of `retry_connect`
(`ananta/ssh.py` lines 54-58): a timeout as last error reports the
configured timeout, otherwise the last protocol error is interpolated.
`timeoutStr` stands for the Python formatting of the float `timeout`. -/
def raiseFrom (ip_address timeoutStr : String) : Option LastError → RetryOutcome
  | some LastError.timeout =>
      RetryOutcome.connectionError
        ("Connection to " ++ ip_address ++ " timed out after " ++ timeoutStr ++ "s")
  | some (LastError.sshError _ msg) =>
      RetryOutcome.connectionError ("Error connecting to " ++ ip_address ++ ": " ++ msg)
  | none =>
      RetryOutcome.connectionError ("Error connecting to " ++ ip_address ++ ": None")

/-- The `for attempt in range(max_retries + 1)` loop of `retry_connect`
(`ananta/ssh.py` lines 25-58).  `oracle` tells what each connection
attempt does; `remaining` is the number of loop iterations left
(initially `max_retries + 1`), `attempt` the loop variable, `opts` the
current `algorithm_options`, `lastError` the current `last_error`.
Returns the trace of attempts made and the outcome. -/
def retryConnectGo (oracle : Nat → ConnectResult) (max_retries : Nat)
    (ip_address timeoutStr : String) :
    Nat → Nat → AlgorithmOptions → Option LastError →
    List AttemptRecord × RetryOutcome
  | 0, _, _, lastError => ([], raiseFrom ip_address timeoutStr lastError)
  | remaining + 1, attempt, opts, _ =>
    match oracle attempt with
    | ConnectResult.success =>
        ([{ attempt := attempt, optsUsed := opts,
            result := ConnectResult.success, sleptAfter := none }],
         RetryOutcome.connected attempt)
    | ConnectResult.sshError code msg =>
        let isKex := code == some DISC_KEY_EXCHANGE_FAILED
        let nextOpts := if isKex then emptyAlgorithmOptions else opts
        let sleepLen : Nat := if isKex then 0 else 1
        let slept := if attempt < max_retries then some sleepLen else none
        let rest := retryConnectGo oracle max_retries ip_address timeoutStr
          remaining (attempt + 1) nextOpts
          (some (LastError.sshError code msg))
        ({ attempt := attempt, optsUsed := opts,
           result := ConnectResult.sshError code msg, sleptAfter := slept } :: rest.1,
         rest.2)
    | ConnectResult.timeout =>
        let slept := if attempt < max_retries then some 1 else none
        let rest := retryConnectGo oracle max_retries ip_address timeoutStr
          remaining (attempt + 1) opts (some LastError.timeout)
        ({ attempt := attempt, optsUsed := opts,
           result := ConnectResult.timeout, sleptAfter := slept } :: rest.1,
         rest.2)

/-- `retry_connect` (`ananta/ssh.py` lines 8-58): run the loop for
`max_retries + 1` iterations starting from attempt 0, the restricted
algorithm suite and no recorded error. -/
def retry_connect (oracle : Nat → ConnectResult)
    (ip_address timeoutStr : String) (max_retries : Nat) :
    List AttemptRecord × RetryOutcome :=
  retryConnectGo oracle max_retries ip_address timeoutStr
    (max_retries + 1) 0 initialAlgorithmOptions none

/-- The oracle of the spec's `[key-exchange-failure, success]` scenario. -/
def kexThenSuccess : Nat → ConnectResult := fun i =>
  if i = 0 then
    ConnectResult.sshError (some DISC_KEY_EXCHANGE_FAILED) "Key exchange failed"
  else ConnectResult.success

/-- The oracle of the spec's `[timeout, timeout]` scenario (every attempt
times out). -/
def allTimeouts : Nat → ConnectResult := fun _ => ConnectResult.timeout

/-! ## Embedding of `ananta/ssh.py` : `execute_command`, `stream_command_output` -/

/-- A Python `bytes` value, abstracted by its UTF-8 decoding:
`decoded = some s` when `b.decode("utf-8")` returns `s`, and
`decoded = none` when the bytes are not valid UTF-8 and `decode`
raises `UnicodeDecodeError`. -/
structure PyBytes where
  decoded : Option String
deriving DecidableEq, Repr

/-- A value observed on the remote stdout: `bytes`, `str`, or anything
else (the `isinstance` checks in the source distinguish exactly these). -/
inductive PyValue where
  | bytes (b : PyBytes)
  | str (s : String)
  | other
deriving DecidableEq, Repr

/-- What `conn.run(...)` does in `execute_command`: return a result whose
`stdout` is a `PyValue`, or raise `asyncssh.Error` with the given
`str` rendering. -/
inductive RunResult where
  | ok (stdout : PyValue)
  | sshError (msg : String)
deriving DecidableEq, Repr

/-- How `execute_command` ends: a returned value (`None` possible), a
raised `RuntimeError`, or a `UnicodeDecodeError` escaping uncaught. -/
inductive ExecOutcome where
  | returns (v : Option String)
  | runtimeError (msg : String)
  | decodeError
deriving DecidableEq, Repr

/-- Result of `execute_command` together with whether `conn.close()` was
called on that path. -/
structure ExecCmdResult where
  outcome : ExecOutcome
  connClosed : Bool
deriving DecidableEq, Repr

/-- `execute_command` (`ananta/ssh.py` lines 104-127).  The `try` body
returns `result.stdout` decoded when it is `bytes` (the bare
`.decode("utf-8")` raises `UnicodeDecodeError` on invalid UTF-8, which no
`except` clause of the function catches), the string itself when it is
`str`, and `None` otherwise; `asyncssh.Error` is re-raised as
`RuntimeError`; the `finally` block closes the connection on every path. -/
def execute_command (run : RunResult) : ExecCmdResult :=
  match run with
  | RunResult.ok (PyValue.bytes b) =>
      match b.decoded with
      | some s => { outcome := ExecOutcome.returns (some s), connClosed := true }
      | none => { outcome := ExecOutcome.decodeError, connClosed := true }
  | RunResult.ok (PyValue.str s) =>
      { outcome := ExecOutcome.returns (some s), connClosed := true }
  | RunResult.ok PyValue.other =>
      { outcome := ExecOutcome.returns none, connClosed := true }
  | RunResult.sshError msg =>
      { outcome := ExecOutcome.runtimeError ("Error executing command: " ++ msg),
        connClosed := true }

/-- One event while iterating `process.stdout` in `stream_command_output`:
either a chunk is yielded, or `asyncssh.Error` is raised at this point
(this also covers `conn.create_process` itself raising, with an empty
prefix of chunks). -/
inductive StreamEvent where
  | chunk (v : PyValue)
  | sshErr (msg : String)
deriving DecidableEq, Repr

/-- An item put onto a host's `output_queue`, tagged by the put site:
`captured` is the single capture-mode put of `execute`'s output value,
`line` a decoded stream chunk, `rawLine` a non-`bytes` non-`str` chunk put
verbatim, `errorMsg` a message put by an `except` handler, and
`endMarker` the sentinel put by `execute`'s `finally` block.
Modelled from the spec: `get_end_marker` lives in `ananta/output.py`,
which is not part of this source tree; per the spec it produces the
EndMarker sentinel for the host (a dashed rule of the host's width and
color), so the marker is represented here by its arguments. -/
inductive QueueItem where
  | captured (v : Option String)
  | line (s : String)
  | rawLine
  | errorMsg (s : String)
  | endMarker (host_name : String) (remote_width : Int) (color : Bool)
deriving DecidableEq, Repr

/-- Whether a queue item is the EndMarker sentinel. -/
def QueueItem.isEndMarker : QueueItem → Bool
  | QueueItem.endMarker _ _ _ => true
  | _ => false

/-- How `stream_command_output` ends: normally, or with an uncaught
`UnicodeDecodeError` aborting the stream. -/
inductive StreamOutcome where
  | completed
  | decodeError
deriving DecidableEq, Repr

/-- Result of `stream_command_output`: the queue puts it performed, how it
ended, and whether it closed the connection (it contains no
`conn.close()` call on any path). -/
structure StreamResult where
  puts : List QueueItem
  outcome : StreamOutcome
  connClosed : Bool
deriving DecidableEq, Repr

/-- The `async for line in process.stdout` loop of `stream_command_output`
(`ananta/ssh.py` lines 138-152): a `bytes` chunk is decoded and put (a
decode failure raises `UnicodeDecodeError`, caught by no `except` clause,
so iteration stops with nothing put for that chunk); any other chunk is
put as-is; an `asyncssh.Error` anywhere in the `try` body is converted to
one descriptive message put on the queue. -/
def streamLoop : List StreamEvent → List QueueItem × StreamOutcome
  | [] => ([], StreamOutcome.completed)
  | StreamEvent.chunk (PyValue.bytes b) :: rest =>
      match b.decoded with
      | some s =>
          let r := streamLoop rest
          (QueueItem.line s :: r.1, r.2)
      | none => ([], StreamOutcome.decodeError)
  | StreamEvent.chunk (PyValue.str s) :: rest =>
      let r := streamLoop rest
      (QueueItem.line s :: r.1, r.2)
  | StreamEvent.chunk PyValue.other :: rest =>
      let r := streamLoop rest
      (QueueItem.rawLine :: r.1, r.2)
  | StreamEvent.sshErr msg :: _ =>
      ([QueueItem.errorMsg ("Error executing command: " ++ msg)],
       StreamOutcome.completed)

/-- `stream_command_output` (`ananta/ssh.py` lines 130-153). -/
def stream_command_output (events : List StreamEvent) : StreamResult :=
  { puts := (streamLoop events).1,
    outcome := (streamLoop events).2,
    connClosed := false }

/-! ## Embedding of `ananta/ssh.py` : `get_ssh_keys` -/

/-- Python truthiness of a `str | None` value: `None` and `""` are falsy. -/
def pyTruthy : Option String → Bool
  | none => false
  | some s => !(s == "")

/-- The `common_keys` list of `get_ssh_keys` (`ananta/ssh.py` lines 71-76):
the conventional key files under the user's `.ssh` directory, in the
conventional order. -/
def common_keys (ssh_dir : String) : List String :=
  [ssh_dir ++ "/id_ed25519", ssh_dir ++ "/id_rsa",
   ssh_dir ++ "/id_ecdsa", ssh_dir ++ "/id_dsa"]

/-- The message of the `ConnectionError` raised when no key is found: this
is the failure the spec's error taxonomy names `NoKeyFoundError`. -/
def noKeysMessage : String := "No SSH keys found in ~/.ssh/ and no key specified"

/-- Result of `get_ssh_keys`: a key list, or the raised error. -/
inductive KeysResult where
  | keys (paths : List String)
  | connectionError (msg : String)
deriving DecidableEq, Repr

/-- `get_ssh_keys` (`ananta/ssh.py` lines 61-83).  `path_exists` stands for
`os.path.exists` and `ssh_dir` for `os.path.expanduser("~/.ssh")`;
`os.path.join` is path concatenation. -/
def get_ssh_keys (path_exists : String → Bool) (ssh_dir : String)
    (key_path default_key : Option String) : KeysResult :=
  if pyTruthy key_path && !(key_path == some "#") then
    KeysResult.keys key_path.toList
  else if pyTruthy default_key then
    KeysResult.keys default_key.toList
  else
    let available_keys := (common_keys ssh_dir).filter path_exists
    if available_keys.isEmpty then KeysResult.connectionError noKeysMessage
    else KeysResult.keys available_keys

/-! ## Embedding of `ananta/ssh.py` : `execute` -/

/-- What `establish_ssh_connection` does: return a connection, or raise a
`ConnectionError` with the given `str` rendering (it wraps every failure
into `ConnectionError`). -/
inductive ConnOutcome where
  | ok
  | connError (msg : String)
deriving DecidableEq, Repr

/-- The environment a call of `execute` runs against: the connection
outcome, the behavior of `conn.run` (used in capture mode), and the
stream events (used in stream mode). -/
structure ExecuteEnv where
  conn : ConnOutcome
  run : RunResult
  events : List StreamEvent
deriving DecidableEq, Repr

/-- How `execute` itself ends: normally, or re-raising the uncaught
`UnicodeDecodeError` after its `finally` block ran. -/
inductive ExecuteOutcome where
  | normal
  | decodeErrorPropagated
deriving DecidableEq, Repr

/-- `execute` (`ananta/ssh.py` lines 155-194): the sequence of items it
puts onto the host's `output_queue` and how it ends.  `ConnectionError`
and `RuntimeError` are caught and reported as error lines; the `finally`
block always puts the EndMarker sentinel last. -/
def execute (host_name : String) (max_name_length local_display_width : Int)
    (separate_output : Bool) (color : Bool) (env : ExecuteEnv) :
    List QueueItem × ExecuteOutcome :=
  let remote_width := local_display_width - max_name_length - 3
  match env.conn with
  | ConnOutcome.connError msg =>
      ([QueueItem.errorMsg ("Error connecting to " ++ host_name ++ ": " ++ msg),
        QueueItem.endMarker host_name remote_width color],
       ExecuteOutcome.normal)
  | ConnOutcome.ok =>
      if separate_output then
        match (execute_command env.run).outcome with
        | ExecOutcome.returns v =>
            ([QueueItem.captured v,
              QueueItem.endMarker host_name remote_width color],
             ExecuteOutcome.normal)
        | ExecOutcome.runtimeError msg =>
            ([QueueItem.errorMsg
                ("Error executing command on " ++ host_name ++ ": " ++ msg),
              QueueItem.endMarker host_name remote_width color],
             ExecuteOutcome.normal)
        | ExecOutcome.decodeError =>
            ([QueueItem.endMarker host_name remote_width color],
             ExecuteOutcome.decodeErrorPropagated)
      else
        let s := stream_command_output env.events
        (s.puts ++ [QueueItem.endMarker host_name remote_width color],
         match s.outcome with
         | StreamOutcome.completed => ExecuteOutcome.normal
         | StreamOutcome.decodeError => ExecuteOutcome.decodeErrorPropagated)

/-! ## Embedding of `ananta/tui.py` : `ansi_to_urwid_markup` -/

/-- One entry of `ANSI_SGR_PALETTE_MAP` (`ananta/tui.py` lines 38-78):
SGR code string, urwid attribute name, urwid foreground, urwid background
and optional mono style. -/
structure SGREntry where
  code : String
  attrName : String
  fg : String
  bg : String
  style : Option String
deriving DecidableEq, Repr

/-- `ANSI_SGR_PALETTE_MAP` (`ananta/tui.py` lines 38-78), in source order. -/
def ANSI_SGR_PALETTE_MAP : List SGREntry :=
  [⟨"0", "", "", "", none⟩,
   ⟨"1", "", "", "", some "bold"⟩,
   ⟨"4", "", "", "", some "underline"⟩,
   ⟨"30", "ansifg_black", "black", "default", none⟩,
   ⟨"31", "ansifg_red", "dark red", "default", none⟩,
   ⟨"32", "ansifg_green", "dark green", "default", none⟩,
   ⟨"33", "ansifg_yellow", "brown", "default", none⟩,
   ⟨"34", "ansifg_blue", "dark blue", "default", none⟩,
   ⟨"35", "ansifg_magenta", "dark magenta", "default", none⟩,
   ⟨"36", "ansifg_cyan", "dark cyan", "default", none⟩,
   ⟨"37", "ansifg_white", "light gray", "default", none⟩,
   ⟨"90", "ansifg_bright_black", "dark gray", "default", none⟩,
   ⟨"91", "ansifg_bright_red", "light red", "default", none⟩,
   ⟨"92", "ansifg_bright_green", "light green", "default", none⟩,
   ⟨"93", "ansifg_bright_yellow", "yellow", "default", none⟩,
   ⟨"94", "ansifg_bright_blue", "light blue", "default", none⟩,
   ⟨"95", "ansifg_bright_magenta", "light magenta", "default", none⟩,
   ⟨"96", "ansifg_bright_cyan", "light cyan", "default", none⟩,
   ⟨"97", "ansifg_bright_white", "white", "default", none⟩,
   ⟨"40", "ansibg_black", "default", "black", none⟩,
   ⟨"41", "ansibg_red", "default", "dark red", none⟩,
   ⟨"42", "ansibg_green", "default", "dark green", none⟩,
   ⟨"43", "ansibg_yellow", "default", "brown", none⟩,
   ⟨"44", "ansibg_blue", "default", "dark blue", none⟩,
   ⟨"45", "ansibg_magenta", "default", "dark magenta", none⟩,
   ⟨"46", "ansibg_cyan", "default", "dark cyan", none⟩,
   ⟨"47", "ansibg_white", "default", "light gray", none⟩,
   ⟨"100", "ansibg_bright_black", "default", "dark gray", none⟩,
   ⟨"101", "ansibg_bright_red", "default", "light red", none⟩,
   ⟨"102", "ansibg_bright_green", "default", "light green", none⟩,
   ⟨"103", "ansibg_bright_yellow", "default", "yellow", none⟩,
   ⟨"104", "ansibg_bright_blue", "default", "light blue", none⟩,
   ⟨"105", "ansibg_bright_magenta", "default", "light magenta", none⟩,
   ⟨"106", "ansibg_bright_cyan", "default", "light cyan", none⟩,
   ⟨"107", "ansibg_bright_white", "default", "white", none⟩]

/-- Membership test `code in ANSI_SGR_PALETTE_MAP` (dict key lookup). -/
def inPaletteMap (code : String) : Bool :=
  (ANSI_SGR_PALETTE_MAP.find? (fun e => e.code == code)).isSome

/-- Dict access `ANSI_SGR_PALETTE_MAP[code][0]` as an `Option`. -/
def paletteAttrName (code : String) : Option String :=
  (ANSI_SGR_PALETTE_MAP.find? (fun e => e.code == code)).map SGREntry.attrName

/-- Lexicographic comparison of char lists by code point, mirroring Python
string `<=`. -/
def charListLe : List Char → List Char → Bool
  | [], _ => true
  | _ :: _, [] => false
  | a :: as, b :: bs =>
      if a = b then charListLe as bs else decide (a.val < b.val)

/-- Python string comparison `s <= t` (lexicographic by code point). -/
def pyStrLe (s t : String) : Bool := charListLe s.toList t.toList

/-- The test `'30' <= s_code <= '37' or '90' <= s_code <= '97'` classifying
a stored SGR code as a foreground color code. -/
def isFgCode (s : String) : Bool :=
  (pyStrLe "30" s && pyStrLe s "37") || (pyStrLe "90" s && pyStrLe s "97")

/-- The test `'40' <= s_code <= '47' or '100' <= s_code <= '107'`
classifying a stored SGR code as a background color code. -/
def isBgCode (s : String) : Bool :=
  (pyStrLe "40" s && pyStrLe s "47") || (pyStrLe "100" s && pyStrLe s "107")

/-- The `for s_code in current_styles` scan that records the last seen
foreground and background codes.  The Python original iterates a `set` in
implementation-defined order; here the set is represented as a list in
insertion order, which determines the outcome only when the set holds more
than one code of the same class. -/
def activeFgBg (styles : List String) : Option String × Option String :=
  styles.foldl
    (fun acc s =>
      if isFgCode s then (some s, acc.2)
      else if isBgCode s then (acc.1, some s)
      else acc)
    (none, none)

/-- The `final_attr_name` computation performed for each emitted text
segment (`ananta/tui.py` lines 117-149 and 181-196): prefer the active
foreground code's palette attribute, then the background's, then bold,
then underline, else no attribute. -/
def finalAttrName (styles : List String) : String :=
  let fgCode := (activeFgBg styles).1
  let bgCode := (activeFgBg styles).2
  match fgCode.bind paletteAttrName with
  | some a => a
  | none =>
    match bgCode.bind paletteAttrName with
    | some a => a
    | none =>
      if styles.contains "1" then "ansi_bold"
      else if styles.contains "4" then "ansi_underline"
      else ""

/-- An element of the urwid markup list: either an `(attribute, text)`
tuple or a plain string. -/
inductive MarkupPart where
  | attr (attrName : String) (text : String)
  | plain (text : String)
deriving DecidableEq, Repr

/-- Emission of one text segment: with an empty style set the text is
appended plain; otherwise `final_attr_name` is computed and, when
non-empty (Python truthiness), an `(attr, text)` tuple is appended. -/
def emitSegment (styles : List String) (text : String) : MarkupPart :=
  if styles.isEmpty then MarkupPart.plain text
  else
    let a := finalAttrName styles
    if a == "" then MarkupPart.plain text else MarkupPart.attr a text

/-- Helper of `splitSemis`: split the remaining characters on `;`,
`acc` holding the reversed characters of the current piece. -/
def splitSemisGo : List Char → List Char → List String
  | acc, [] => [String.mk acc.reverse]
  | acc, c :: cs =>
      if c = ';' then String.mk acc.reverse :: splitSemisGo [] cs
      else splitSemisGo (c :: acc) cs

/-- Python `codes_str.split(';')`: split on every semicolon, keeping empty
pieces (`"".split(';') == ['']`). -/
def splitSemis (s : String) : List String := splitSemisGo [] s.toList

/-- Application of one matched SGR parameter list to `current_styles`
(`ananta/tui.py` lines 161-175): an empty parameter string or `"0"`
clears the set; otherwise the semicolon-separated codes are processed in
order, `"0"` clearing the set and any code that is a key of
`ANSI_SGR_PALETTE_MAP` being added to it. -/
def applySGRCodes (styles : List String) (params : String) : List String :=
  if params == "" || params == "0" then []
  else
    (splitSemis params).foldl
      (fun st code =>
        if code == "0" then []
        else if inPaletteMap code then
          (if st.contains code then st else st ++ [code])
        else st)
      styles

/-- A token of the scanned input line: a literal character, or one match
of the regex `\x1b\[([\d;]*)m` carrying its parameter string. -/
inductive AnsiToken where
  | ch (c : Char)
  | sgr (params : String)
deriving DecidableEq, Repr

/-- State of the left-to-right scan for `\x1b\[([\d;]*)m` matches:
outside a candidate match, after `\x1b`, or after `\x1b[` with the
parameter characters read so far. -/
inductive ScanState where
  | normal
  | sawEsc
  | inParams (params : String)
deriving DecidableEq, Repr

/-- The characters buffered by a partial `\x1b[` candidate, replayed as
literal text when the candidate fails to match.  None of them can start a
match (`[`, digits and `;` are not `\x1b`), so replaying them as text is
exactly what `re.finditer`'s resumption at the next position does. -/
def flushParams (params : String) : List AnsiToken :=
  AnsiToken.ch '\x1b' :: AnsiToken.ch '[' :: params.toList.map AnsiToken.ch

/-- Left-to-right scan of the line for non-overlapping matches of
`ANSI_SGR_PATTERN = \x1b\[([\d;]*)m` (`ananta/tui.py` line 81), the
text between matches kept as literal characters - the same decomposition
`re.finditer` produces in `ansi_to_urwid_markup`. -/
def tokenizeGo : ScanState → List Char → List AnsiToken
  | st, [] =>
      match st with
      | ScanState.normal => []
      | ScanState.sawEsc => [AnsiToken.ch '\x1b']
      | ScanState.inParams params => flushParams params
  | ScanState.normal, c :: cs =>
      if c = '\x1b' then tokenizeGo ScanState.sawEsc cs
      else AnsiToken.ch c :: tokenizeGo ScanState.normal cs
  | ScanState.sawEsc, c :: cs =>
      if c = '[' then tokenizeGo (ScanState.inParams "") cs
      else if c = '\x1b' then AnsiToken.ch '\x1b' :: tokenizeGo ScanState.sawEsc cs
      else AnsiToken.ch '\x1b' :: AnsiToken.ch c :: tokenizeGo ScanState.normal cs
  | ScanState.inParams params, c :: cs =>
      if c = 'm' then AnsiToken.sgr params :: tokenizeGo ScanState.normal cs
      else if c.isDigit || c = ';' then
        tokenizeGo (ScanState.inParams (params.push c)) cs
      else if c = '\x1b' then flushParams params ++ tokenizeGo ScanState.sawEsc cs
      else flushParams params ++ (AnsiToken.ch c :: tokenizeGo ScanState.normal cs)

/-- The main loop of `ansi_to_urwid_markup` over the scanned tokens,
carrying `current_styles` and the pending text accumulated since the last
match (`line[last_pos:start]`): before each match the pending text, when
non-empty, is emitted with the current styles, and the match's codes are
applied; the trailing text is emitted at the end. -/
def segmentsGo : List AnsiToken → List String → String → List MarkupPart
  | [], styles, acc => if acc == "" then [] else [emitSegment styles acc]
  | AnsiToken.ch c :: rest, styles, acc => segmentsGo rest styles (acc.push c)
  | AnsiToken.sgr params :: rest, styles, acc =>
      (if acc == "" then [] else [emitSegment styles acc]) ++
        segmentsGo rest (applySGRCodes styles params) ""

/-- The final comprehension of `ansi_to_urwid_markup` (line 206): tuples
are kept, plain strings only when non-empty. -/
def markupFilter (parts : List MarkupPart) : List MarkupPart :=
  parts.filter (fun p =>
    match p with
    | MarkupPart.attr _ _ => true
    | MarkupPart.plain s => !(s == ""))

/-- `ansi_to_urwid_markup` (`ananta/tui.py` lines 97-206). -/
def ansi_to_urwid_markup (line : String) : List MarkupPart :=
  markupFilter (segmentsGo (tokenizeGo ScanState.normal line.toList) [] "")

/-! ## Embedding of `ananta/tui.py` : `AnantaUrwidTUI._add_output_line` -/

/-- The scrollback management of `_add_output_line` (`ananta/tui.py`
lines 325-327): append the new widget to `self.output_walker`; then, if
the walker holds more than 3000 entries, `del self.output_walker[0:len-2000]`
removes the oldest entries in one bulk operation so that the newest 2000
remain. -/
def add_output_line {α : Type} (output_walker : List α) (widget : α) : List α :=
  let appended := output_walker ++ [widget]
  if appended.length > 3000 then appended.drop (appended.length - 2000)
  else appended

/-- The key-exchange relaxation property of a `retry_connect` trace: at
every attempt that failed with the key-exchange negotiation-failure error
code, the sleep before the next attempt (when one exists) is zero, and
every later attempt is made with no algorithm restriction. -/
def KexInvariant (max_retries : Nat) (tr : List AttemptRecord) : Prop :=
  ∀ j (hj : j < tr.length) (msg : String),
    (tr[j]).result
      = ConnectResult.sshError (some DISC_KEY_EXCHANGE_FAILED) msg →
    ((tr[j]).attempt < max_retries → (tr[j]).sleptAfter = some 0) ∧
    (∀ k (hk : k < tr.length), j < k →
      (tr[k]).optsUsed = emptyAlgorithmOptions)

/-! ## Theorems -/

/-- Helper: `stream_command_output` never puts the EndMarker sentinel. -/
theorem stream_command_output_no_endMarker (events : List StreamEvent) :
    (stream_command_output events).puts.filter QueueItem.isEndMarker = [] := by
  show (streamLoop events).1.filter QueueItem.isEndMarker = []
  induction events with
  | nil => rfl
  | cons e rest ih =>
    cases e with
    | chunk v =>
      cases v with
      | bytes b =>
        rcases b with ⟨d⟩
        cases d with
        | none => rfl
        | some s => simp [streamLoop, QueueItem.isEndMarker, ih]
      | str s => simp [streamLoop, QueueItem.isEndMarker, ih]
      | other => simp [streamLoop, QueueItem.isEndMarker, ih]
    | sshErr msg => rfl

/-- C1: for every call of `execute` - any host, any command, whether the
connection succeeds, `establish_ssh_connection` raises `ConnectionError`,
or execution raises `RuntimeError` (and even when a `UnicodeDecodeError`
escapes) - exactly one EndMarker is put onto that host's output queue,
and it is the last item `execute` puts onto the queue. -/
theorem execute_end_marker_once_and_last (host_name : String)
    (max_name_length local_display_width : Int) (separate_output color : Bool)
    (env : ExecuteEnv) :
    ((execute host_name max_name_length local_display_width separate_output
        color env).1.filter QueueItem.isEndMarker).length = 1 ∧
    (execute host_name max_name_length local_display_width separate_output
        color env).1.getLast?
      = some (QueueItem.endMarker host_name
          (local_display_width - max_name_length - 3) color) := by
  rcases env with ⟨conn, run, events⟩
  cases conn with
  | connError msg => exact ⟨rfl, rfl⟩
  | ok =>
    cases separate_output with
    | true =>
      rcases run with v | msg
      · cases v with
        | bytes b =>
          rcases b with ⟨d⟩
          cases d with
          | none => exact ⟨rfl, rfl⟩
          | some s => exact ⟨rfl, rfl⟩
        | str s => exact ⟨rfl, rfl⟩
        | other => exact ⟨rfl, rfl⟩
      · exact ⟨rfl, rfl⟩
    | false =>
      have h1 : (execute host_name max_name_length local_display_width false
          color ⟨ConnOutcome.ok, run, events⟩).1
          = (stream_command_output events).puts ++
            [QueueItem.endMarker host_name
              (local_display_width - max_name_length - 3) color] := rfl
      constructor
      · rw [h1, List.filter_append, stream_command_output_no_endMarker]
        rfl
      · rw [h1, List.getLast?_concat]

/-- C4 (evaluation at the failing input): in capture mode, on a stdout
value that is not valid UTF-8, `execute_command` does not return a
descriptive error string - the bare `result.stdout.decode("utf-8")`
raises `UnicodeDecodeError`, which no `except` clause of the function
catches, so the exception propagates (the repository's own test
`test_execute_command_unicode_decode_error` expects a returned string
containing "cannot be decoded as UTF-8" instead). -/
theorem execute_command_decode_error_raises :
    execute_command (RunResult.ok (PyValue.bytes { decoded := none }))
      = { outcome := ExecOutcome.decodeError, connClosed := true } := rfl

/-- C5: `execute_command` calls `conn.close()` on every exit path
(successful run, remote command failure, and decode failure - its
`finally` block), while `stream_command_output` contains no
`conn.close()` call on any path. -/
theorem connection_close_discipline :
    (∀ run : RunResult, (execute_command run).connClosed = true) ∧
    (∀ events : List StreamEvent,
      (stream_command_output events).connClosed = false) := by
  constructor
  · intro run
    rcases run with v | msg
    · cases v with
      | bytes b =>
        rcases b with ⟨d⟩
        cases d with
        | none => rfl
        | some s => rfl
      | str s => rfl
      | other => rfl
    · rfl
  · intro events
    rfl

/-- C6 (evaluation at the failing input): in stream mode, a chunk of bytes
that is not valid UTF-8 makes `stream_command_output` raise an uncaught
`UnicodeDecodeError`: nothing is put onto the queue in place of the chunk
and the subsequent chunk is never streamed (the repository's own test
`test_stream_command_output_various_chunks` expects a descriptive message
to be put and streaming to continue). -/
theorem stream_command_output_decode_error_aborts :
    stream_command_output
        [StreamEvent.chunk (PyValue.bytes { decoded := none }),
         StreamEvent.chunk (PyValue.str "another string")]
      = { puts := [], outcome := StreamOutcome.decodeError,
          connClosed := false } := rfl

/-- C8 (evaluation at the failing input): on
`"\x1b[38;2;10;20;30mtruecolor\x1b[0m"` the renderer yields one segment
with text `"truecolor"`, but its attribute is `ansifg_black` (urwid
foreground `black`): the function has no handling for the truecolor
introducer `38;2` and instead adds the blue sub-parameter `30` to the
style set as the SGR black-foreground code, rather than producing the
RGB color (10,20,30) the spec and the repository's test
`test_ansi_to_urwid_markup` (expected `#0a141e`) require. -/
theorem ansi_truecolor_renders_black :
    ansi_to_urwid_markup "\x1b[38;2;10;20;30mtruecolor\x1b[0m"
      = [MarkupPart.attr "ansifg_black" "truecolor"] ∧
    (ANSI_SGR_PALETTE_MAP.find? (fun e => e.code == "30")).map SGREntry.fg
      = some "black" := ⟨rfl, rfl⟩

/-- C9: after every append the scrollback holds at most 3000 lines;
whenever the count exceeds 3000 immediately after an append, the oldest
lines are deleted in one bulk operation so that exactly the 2000 newest
lines remain. -/
theorem add_output_line_cap {α : Type} (output_walker : List α) (widget : α) :
    (add_output_line output_walker widget).length ≤ 3000 ∧
    (output_walker.length + 1 > 3000 →
      add_output_line output_walker widget
          = (output_walker ++ [widget]).drop (output_walker.length + 1 - 2000) ∧
      (add_output_line output_walker widget).length = 2000) ∧
    (output_walker.length + 1 ≤ 3000 →
      add_output_line output_walker widget = output_walker ++ [widget]) := by
  have hlen : (output_walker ++ [widget]).length = output_walker.length + 1 := by
    simp
  rcases Nat.lt_or_ge 3000 (output_walker.length + 1) with h | h
  · have hcond : (output_walker ++ [widget]).length > 3000 := by omega
    have hval : add_output_line output_walker widget
        = (output_walker ++ [widget]).drop
            ((output_walker ++ [widget]).length - 2000) := by
      simp only [add_output_line]
      rw [if_pos hcond]
    refine ⟨?_, fun _ => ⟨?_, ?_⟩, fun h2 => by omega⟩
    · rw [hval, List.length_drop]
      omega
    · rw [hval, hlen]
    · rw [hval, List.length_drop]
      omega
  · have hcond : ¬((output_walker ++ [widget]).length > 3000) := by omega
    have hval : add_output_line output_walker widget
        = output_walker ++ [widget] := by
      simp only [add_output_line]
      rw [if_neg hcond]
    exact ⟨by rw [hval]; omega, fun h2 => by omega, fun _ => hval⟩

/-- Witness for C9: appending to a full 3000-line scrollback trims it to
exactly the 2000 newest lines. -/
theorem add_output_line_cap_witness :
    (List.replicate 3000 (0 : Nat)).length + 1 > 3000 ∧
    (add_output_line (List.replicate 3000 (0 : Nat)) 0).length = 2000 :=
  ⟨by rw [List.length_replicate]; omega,
   ((add_output_line_cap (List.replicate 3000 (0 : Nat)) 0).2.1
      (by rw [List.length_replicate]; omega)).2⟩

/-- C7: with the `"#"` sentinel as key path and no default key configured,
`get_ssh_keys` probes the conventional key files; when none exists it
fails with the no-key-found error (the `ConnectionError` whose message is
`noKeysMessage` - the failure the spec's taxonomy names `NoKeyFoundError`),
otherwise it returns exactly the existing conventional keys, preserving
the conventional order (the result is the order-preserving filter of
`common_keys`, a sublist of it). -/
theorem get_ssh_keys_no_key_found (path_exists : String → Bool)
    (ssh_dir : String) (default_key : Option String)
    (hdk : pyTruthy default_key = false) :
    ((common_keys ssh_dir).filter path_exists = [] →
      get_ssh_keys path_exists ssh_dir (some "#") default_key
        = KeysResult.connectionError noKeysMessage) ∧
    ((common_keys ssh_dir).filter path_exists ≠ [] →
      get_ssh_keys path_exists ssh_dir (some "#") default_key
        = KeysResult.keys ((common_keys ssh_dir).filter path_exists)) ∧
    List.Sublist ((common_keys ssh_dir).filter path_exists)
      (common_keys ssh_dir) := by
  have hc : (pyTruthy (some "#") && !((some "#" : Option String) == some "#"))
      = false := rfl
  refine ⟨?_, ?_, List.filter_sublist _⟩
  · intro hempty
    simp [get_ssh_keys, hc, hdk, hempty]
  · intro hne
    simp [get_ssh_keys, hc, hdk, List.isEmpty_iff, hne]

/-- Witness for C7: on a filesystem with no conventional keys the probe
fails with the no-key-found error; with only `id_rsa` present it returns
exactly that key. -/
theorem get_ssh_keys_no_key_found_witness :
    (pyTruthy none = false ∧
      get_ssh_keys (fun _ => false) "/fake/home/.ssh" (some "#") none
        = KeysResult.connectionError noKeysMessage) ∧
    get_ssh_keys (fun p => p == "/fake/home/.ssh/id_rsa") "/fake/home/.ssh"
        (some "#") none
      = KeysResult.keys ["/fake/home/.ssh/id_rsa"] := by
  refine ⟨⟨rfl, ?_⟩, ?_⟩
  · exact (get_ssh_keys_no_key_found (fun _ => false) "/fake/home/.ssh"
      none rfl).1 rfl
  · have h := (get_ssh_keys_no_key_found
      (fun p => p == "/fake/home/.ssh/id_rsa") "/fake/home/.ssh" none rfl).2.1
      (by decide)
    exact h.trans (by decide)

/-- C10: `get_ssh_keys` treats a `key_path` of `None` or `""` exactly like
the `"#"` sentinel (all three take the same fall-through: the default key
alone when one is given, otherwise the probed conventional keys), and
only a non-empty `key_path` different from `"#"` is returned alone. -/
theorem get_ssh_keys_sentinel_equivalence (path_exists : String → Bool)
    (ssh_dir : String) (default_key : Option String) :
    get_ssh_keys path_exists ssh_dir none default_key
        = get_ssh_keys path_exists ssh_dir (some "#") default_key ∧
    get_ssh_keys path_exists ssh_dir (some "") default_key
        = get_ssh_keys path_exists ssh_dir (some "#") default_key ∧
    (pyTruthy default_key = true →
      get_ssh_keys path_exists ssh_dir (some "#") default_key
        = KeysResult.keys default_key.toList) ∧
    (pyTruthy default_key = false →
      get_ssh_keys path_exists ssh_dir (some "#") default_key
        = (if ((common_keys ssh_dir).filter path_exists).isEmpty
           then KeysResult.connectionError noKeysMessage
           else KeysResult.keys ((common_keys ssh_dir).filter path_exists))) ∧
    (∀ s : String, ¬s = "" → ¬s = "#" →
      get_ssh_keys path_exists ssh_dir (some s) default_key
        = KeysResult.keys [s]) := by
  refine ⟨rfl, rfl, ?_, ?_, ?_⟩
  · intro h
    simp [get_ssh_keys, h]
  · intro h
    simp [get_ssh_keys, h]
  · intro s h1 h2
    simp [get_ssh_keys, pyTruthy, h1, h2]

/-- Witness for C10: with a default key configured the sentinel returns
the default key alone; a real per-host key path is returned alone even
when a default key is also configured. -/
theorem get_ssh_keys_sentinel_equivalence_witness :
    pyTruthy (some "/default/key") = true ∧
    get_ssh_keys (fun _ => false) "/fake/home/.ssh" (some "#")
        (some "/default/key")
      = KeysResult.keys ["/default/key"] ∧
    get_ssh_keys (fun _ => false) "/fake/home/.ssh" (some "/another/key")
        (some "/default/key")
      = KeysResult.keys ["/another/key"] := by
  refine ⟨rfl, ?_, ?_⟩
  · have h := (get_ssh_keys_sentinel_equivalence (fun _ => false)
      "/fake/home/.ssh" (some "/default/key")).2.2.1 rfl
    exact h.trans (by decide)
  · exact (get_ssh_keys_sentinel_equivalence (fun _ => false)
      "/fake/home/.ssh" (some "/default/key")).2.2.2.2 "/another/key"
      (by decide) (by decide)

/-- Helper: the retry loop makes at most `remaining` further attempts. -/
theorem retryConnectGo_length_le (oracle : Nat → ConnectResult)
    (max_retries : Nat) (ip t : String) :
    ∀ remaining attempt opts lastError,
      (retryConnectGo oracle max_retries ip t remaining attempt opts
        lastError).1.length ≤ remaining := by
  intro remaining
  induction remaining with
  | zero =>
    intro attempt opts lastError
    simp [retryConnectGo]
  | succ n ih =>
    intro attempt opts lastError
    cases h : oracle attempt with
    | success =>
      simp only [retryConnectGo, h, List.length_cons, List.length_nil]
      omega
    | sshError code msg =>
      simp only [retryConnectGo, h, List.length_cons]
      exact Nat.succ_le_succ (ih _ _ _)
    | timeout =>
      simp only [retryConnectGo, h, List.length_cons]
      exact Nat.succ_le_succ (ih _ _ _)

/-- Helper: when every attempt in range fails, the retry loop makes
exactly `remaining` further attempts. -/
theorem retryConnectGo_fail_len (oracle : Nat → ConnectResult)
    (max_retries : Nat) (ip t : String) :
    ∀ remaining attempt opts lastError,
      (∀ i, i < remaining → oracle (attempt + i) ≠ ConnectResult.success) →
      (retryConnectGo oracle max_retries ip t remaining attempt opts
        lastError).1.length = remaining := by
  intro remaining
  induction remaining with
  | zero =>
    intro attempt opts lastError _
    simp [retryConnectGo]
  | succ n ih =>
    intro attempt opts lastError hfail
    have h0 : oracle attempt ≠ ConnectResult.success := by
      have := hfail 0 (Nat.succ_pos n)
      simpa using this
    have hshift : ∀ i, i < n →
        oracle (attempt + 1 + i) ≠ ConnectResult.success := by
      intro i hi
      have := hfail (i + 1) (by omega)
      have e : attempt + (i + 1) = attempt + 1 + i := by omega
      rwa [e] at this
    cases h : oracle attempt with
    | success => exact absurd h h0
    | sshError code msg =>
      simp only [retryConnectGo, h, List.length_cons]
      rw [ih _ _ _ hshift]
    | timeout =>
      simp only [retryConnectGo, h, List.length_cons]
      rw [ih _ _ _ hshift]

/-- Helper: the trace of an exhausted loop (`remaining = 0`) is empty and
its outcome is the raise from the stored last error. -/
theorem retryConnectGo_zero (oracle : Nat → ConnectResult)
    (max_retries : Nat) (ip t : String) (attempt : Nat)
    (opts : AlgorithmOptions) (le : Option LastError) :
    retryConnectGo oracle max_retries ip t 0 attempt opts le
      = ([], raiseFrom ip t le) := rfl

/-- Helper: one successful loop iteration, unfolded. -/
theorem retryConnectGo_step_success (oracle : Nat → ConnectResult)
    (max_retries : Nat) (ip t : String) (r attempt : Nat)
    (opts : AlgorithmOptions) (le : Option LastError)
    (h : oracle attempt = ConnectResult.success) :
    retryConnectGo oracle max_retries ip t (r + 1) attempt opts le
      = ([{ attempt := attempt, optsUsed := opts,
            result := ConnectResult.success, sleptAfter := none }],
         RetryOutcome.connected attempt) := by
  simp [retryConnectGo, h]

/-- Helper: trace of one `asyncssh.Error` loop iteration, unfolded one
step. -/
theorem retryConnectGo_fst_sshError (oracle : Nat → ConnectResult)
    (max_retries : Nat) (ip t : String) (r attempt : Nat)
    (opts : AlgorithmOptions) (le : Option LastError)
    (code : Option Int) (msg : String)
    (h : oracle attempt = ConnectResult.sshError code msg) :
    (retryConnectGo oracle max_retries ip t (r + 1) attempt opts le).1
      = { attempt := attempt, optsUsed := opts,
          result := ConnectResult.sshError code msg,
          sleptAfter :=
            if attempt < max_retries then
              some (if code == some DISC_KEY_EXCHANGE_FAILED then 0 else 1)
            else none }
        :: (retryConnectGo oracle max_retries ip t r (attempt + 1)
            (if code == some DISC_KEY_EXCHANGE_FAILED then
              emptyAlgorithmOptions else opts)
            (some (LastError.sshError code msg))).1 := by
  simp [retryConnectGo, h]

/-- Helper: outcome of one `asyncssh.Error` loop iteration, unfolded one
step. -/
theorem retryConnectGo_snd_sshError (oracle : Nat → ConnectResult)
    (max_retries : Nat) (ip t : String) (r attempt : Nat)
    (opts : AlgorithmOptions) (le : Option LastError)
    (code : Option Int) (msg : String)
    (h : oracle attempt = ConnectResult.sshError code msg) :
    (retryConnectGo oracle max_retries ip t (r + 1) attempt opts le).2
      = (retryConnectGo oracle max_retries ip t r (attempt + 1)
          (if code == some DISC_KEY_EXCHANGE_FAILED then
            emptyAlgorithmOptions else opts)
          (some (LastError.sshError code msg))).2 := by
  simp [retryConnectGo, h]

/-- Helper: trace of one timed-out loop iteration, unfolded one step. -/
theorem retryConnectGo_fst_timeout (oracle : Nat → ConnectResult)
    (max_retries : Nat) (ip t : String) (r attempt : Nat)
    (opts : AlgorithmOptions) (le : Option LastError)
    (h : oracle attempt = ConnectResult.timeout) :
    (retryConnectGo oracle max_retries ip t (r + 1) attempt opts le).1
      = { attempt := attempt, optsUsed := opts,
          result := ConnectResult.timeout,
          sleptAfter := if attempt < max_retries then some 1 else none }
        :: (retryConnectGo oracle max_retries ip t r (attempt + 1) opts
            (some LastError.timeout)).1 := by
  simp [retryConnectGo, h]

/-- Helper: outcome of one timed-out loop iteration, unfolded one step. -/
theorem retryConnectGo_snd_timeout (oracle : Nat → ConnectResult)
    (max_retries : Nat) (ip t : String) (r attempt : Nat)
    (opts : AlgorithmOptions) (le : Option LastError)
    (h : oracle attempt = ConnectResult.timeout) :
    (retryConnectGo oracle max_retries ip t (r + 1) attempt opts le).2
      = (retryConnectGo oracle max_retries ip t r (attempt + 1) opts
          (some LastError.timeout)).2 := by
  simp [retryConnectGo, h]

/-- Helper: when every attempt in range fails, the loop's outcome is the
`ConnectionError` raised from the last attempt's failure. -/
theorem retryConnectGo_fail_out (oracle : Nat → ConnectResult)
    (max_retries : Nat) (ip t : String) :
    ∀ n attempt opts lastError,
      (∀ i, i ≤ n → oracle (attempt + i) ≠ ConnectResult.success) →
      (retryConnectGo oracle max_retries ip t (n + 1) attempt opts
        lastError).2
        = raiseFrom ip t (toLastError (oracle (attempt + n))) := by
  intro n
  induction n with
  | zero =>
    intro attempt opts lastError hfail
    have h0 : oracle attempt ≠ ConnectResult.success := by
      have := hfail 0 (Nat.le_refl 0)
      simpa using this
    cases h : oracle attempt with
    | success => exact absurd h h0
    | sshError code msg =>
      rw [retryConnectGo_snd_sshError oracle max_retries ip t 0 attempt opts
        lastError code msg h, retryConnectGo_zero, Nat.add_zero, h]
      rfl
    | timeout =>
      rw [retryConnectGo_snd_timeout oracle max_retries ip t 0 attempt opts
        lastError h, retryConnectGo_zero, Nat.add_zero, h]
      rfl
  | succ n ih =>
    intro attempt opts lastError hfail
    have h0 : oracle attempt ≠ ConnectResult.success := by
      have := hfail 0 (Nat.zero_le _)
      simpa using this
    have hshift : ∀ i, i ≤ n →
        oracle (attempt + 1 + i) ≠ ConnectResult.success := by
      intro i hi
      have := hfail (i + 1) (by omega)
      have e : attempt + (i + 1) = attempt + 1 + i := by omega
      rwa [e] at this
    have e2 : attempt + (n + 1) = attempt + 1 + n := by omega
    cases h : oracle attempt with
    | success => exact absurd h h0
    | sshError code msg =>
      rw [retryConnectGo_snd_sshError oracle max_retries ip t (n + 1) attempt
        opts lastError code msg h, ih _ _ _ hshift, e2]
    | timeout =>
      rw [retryConnectGo_snd_timeout oracle max_retries ip t (n + 1) attempt
        opts lastError h, ih _ _ _ hshift, e2]

/-- C2: for every non-negative `max_retries`, `retry_connect` attempts
the connection at most `max_retries + 1` times; when every attempt fails
it makes exactly `max_retries + 1` attempts and raises `ConnectionError`
carrying the last observed cause - the message reports the configured
timeout when the last failure was a timeout, and the last protocol error
string otherwise. -/
theorem retry_connect_exhaustion (oracle : Nat → ConnectResult)
    (ip_address timeoutStr : String) (max_retries : Nat)
    (hfail : ∀ i, i ≤ max_retries → oracle i ≠ ConnectResult.success) :
    (retry_connect oracle ip_address timeoutStr max_retries).1.length
        = max_retries + 1 ∧
    (∀ ora : Nat → ConnectResult,
      (retry_connect ora ip_address timeoutStr max_retries).1.length
        ≤ max_retries + 1) ∧
    (oracle max_retries = ConnectResult.timeout →
      (retry_connect oracle ip_address timeoutStr max_retries).2
        = RetryOutcome.connectionError
            ("Connection to " ++ ip_address ++ " timed out after "
              ++ timeoutStr ++ "s")) ∧
    (∀ code msg, oracle max_retries = ConnectResult.sshError code msg →
      (retry_connect oracle ip_address timeoutStr max_retries).2
        = RetryOutcome.connectionError
            ("Error connecting to " ++ ip_address ++ ": " ++ msg)) := by
  have hfail2 : ∀ i, i < max_retries + 1 →
      oracle (0 + i) ≠ ConnectResult.success := by
    intro i hi
    simpa using hfail i (by omega)
  have hout := retryConnectGo_fail_out oracle max_retries ip_address
    timeoutStr max_retries 0 initialAlgorithmOptions none
    (by intro i hi; simpa using hfail i hi)
  rw [show (0 : Nat) + max_retries = max_retries by omega] at hout
  refine ⟨?_, ?_, ?_, ?_⟩
  · exact retryConnectGo_fail_len oracle max_retries ip_address timeoutStr
      (max_retries + 1) 0 initialAlgorithmOptions none hfail2
  · intro ora
    exact retryConnectGo_length_le ora max_retries ip_address timeoutStr
      (max_retries + 1) 0 initialAlgorithmOptions none
  · intro htm
    have h2 := hout
    rw [htm] at h2
    exact h2
  · intro code msg hsh
    have h2 := hout
    rw [hsh] at h2
    exact h2

/-- Witness for C2: `[timeout, timeout]` with `max_retries = 1` makes two
attempts and fails with a message containing the configured timeout
value. -/
theorem retry_connect_exhaustion_witness :
    (∀ i, i ≤ 1 → allTimeouts i ≠ ConnectResult.success) ∧
    (retry_connect allTimeouts "10.0.0.1" "0.1" 1).1.length = 2 ∧
    (retry_connect allTimeouts "10.0.0.1" "0.1" 1).2
      = RetryOutcome.connectionError
          "Connection to 10.0.0.1 timed out after 0.1s" := by
  have hfail : ∀ i, i ≤ 1 → allTimeouts i ≠ ConnectResult.success := by
    intro i _
    simp [allTimeouts]
  refine ⟨hfail, ?_, ?_⟩
  · exact (retry_connect_exhaustion allTimeouts "10.0.0.1" "0.1" 1 hfail).1
  · exact (retry_connect_exhaustion allTimeouts "10.0.0.1" "0.1" 1
      hfail).2.2.1 rfl

/-- Helper: every attempt of a loop started with the empty algorithm
options is made with the empty algorithm options (the relaxation, once in
effect, persists: nothing ever restores the restricted suite). -/
theorem retryConnectGo_empty_opts (oracle : Nat → ConnectResult)
    (max_retries : Nat) (ip t : String) :
    ∀ remaining attempt lastError r,
      r ∈ (retryConnectGo oracle max_retries ip t remaining attempt
        emptyAlgorithmOptions lastError).1 →
      r.optsUsed = emptyAlgorithmOptions := by
  intro remaining
  induction remaining with
  | zero =>
    intro attempt lastError r hr
    rw [retryConnectGo_zero] at hr
    simp at hr
  | succ n ih =>
    intro attempt lastError r hr
    cases h : oracle attempt with
    | success =>
      rw [retryConnectGo_step_success oracle max_retries ip t n attempt
        emptyAlgorithmOptions lastError h] at hr
      simp at hr
      subst hr
      rfl
    | sshError code msg =>
      rw [retryConnectGo_fst_sshError oracle max_retries ip t n attempt
        emptyAlgorithmOptions lastError code msg h, ite_self,
        List.mem_cons] at hr
      rcases hr with h1 | h2
      · subst h1; rfl
      · exact ih (attempt + 1) _ r h2
    | timeout =>
      rw [retryConnectGo_fst_timeout oracle max_retries ip t n attempt
        emptyAlgorithmOptions lastError h, List.mem_cons] at hr
      rcases hr with h1 | h2
      · subst h1; rfl
      · exact ih (attempt + 1) _ r h2

/-- Helper: `KexInvariant` extends along `cons` when the head record
itself honors the relaxation with respect to the tail. -/
theorem kexInvariant_cons (max_retries : Nat) (rec : AttemptRecord)
    (tl : List AttemptRecord)
    (hrec : ∀ msg : String,
      rec.result = ConnectResult.sshError (some DISC_KEY_EXCHANGE_FAILED) msg →
      (rec.attempt < max_retries → rec.sleptAfter = some 0) ∧
      (∀ r ∈ tl, r.optsUsed = emptyAlgorithmOptions))
    (htl : KexInvariant max_retries tl) :
    KexInvariant max_retries (rec :: tl) := by
  intro j hj msg hres
  cases j with
  | zero =>
    simp only [List.getElem_cons_zero] at hres ⊢
    refine ⟨(hrec msg hres).1, ?_⟩
    intro k hk hlt
    cases k with
    | zero => omega
    | succ k2 =>
      simp only [List.getElem_cons_succ]
      exact (hrec msg hres).2 _ (List.getElem_mem _)
  | succ j2 =>
    simp only [List.getElem_cons_succ] at hres ⊢
    have hj2 : j2 < tl.length := by
      simpa using hj
    obtain ⟨hA, hB⟩ := htl j2 hj2 msg hres
    refine ⟨hA, ?_⟩
    intro k hk hlt
    cases k with
    | zero => omega
    | succ k2 =>
      simp only [List.getElem_cons_succ]
      exact hB k2 (by simpa using hk) (by omega)

/-- Helper: every `retry_connect` loop trace satisfies `KexInvariant`. -/
theorem retryConnectGo_kexInvariant (oracle : Nat → ConnectResult)
    (max_retries : Nat) (ip t : String) :
    ∀ remaining attempt opts lastError,
      KexInvariant max_retries
        (retryConnectGo oracle max_retries ip t remaining attempt opts
          lastError).1 := by
  intro remaining
  induction remaining with
  | zero =>
    intro attempt opts lastError
    rw [retryConnectGo_zero]
    intro j hj msg
    simp at hj
  | succ n ih =>
    intro attempt opts lastError
    cases h : oracle attempt with
    | success =>
      rw [retryConnectGo_step_success oracle max_retries ip t n attempt opts
        lastError h]
      apply kexInvariant_cons
      · intro msg2 hres2
        simp at hres2
      · intro j hj msg
        simp at hj
    | sshError code msg =>
      rw [retryConnectGo_fst_sshError oracle max_retries ip t n attempt opts
        lastError code msg h]
      apply kexInvariant_cons
      · intro msg2 hres2
        simp only [List.getElem_cons_zero] at hres2
        injection hres2 with hc hm
        subst hc
        constructor
        · intro hlt
          simp [hlt]
        · intro r hr
          have hopts : (if ((some DISC_KEY_EXCHANGE_FAILED : Option Int)
              == some DISC_KEY_EXCHANGE_FAILED) then emptyAlgorithmOptions
              else opts) = emptyAlgorithmOptions := by
            simp
          rw [hopts] at hr
          exact retryConnectGo_empty_opts oracle max_retries ip t n
            (attempt + 1) _ r hr
      · exact ih (attempt + 1) _ _
    | timeout =>
      rw [retryConnectGo_fst_timeout oracle max_retries ip t n attempt opts
        lastError h]
      apply kexInvariant_cons
      · intro msg2 hres2
        simp at hres2
      · exact ih (attempt + 1) _ _

/-- C3: in `retry_connect`, when an attempt fails with the key-exchange
negotiation-failure error code, the next attempt is made with no algorithm
restriction and with zero sleep before it, and once the relaxation is
triggered every subsequent attempt also uses the unrestricted algorithm
set; in particular `[key-exchange-failure, success]` with `max_retries = 1`
returns a connection and the second attempt passes no encryption or MAC
algorithm restriction. -/
theorem retry_connect_kex_relaxation (oracle : Nat → ConnectResult)
    (ip_address timeoutStr : String) (max_retries : Nat) :
    (∀ j (hj : j < (retry_connect oracle ip_address timeoutStr
        max_retries).1.length) (msg : String),
      ((retry_connect oracle ip_address timeoutStr max_retries).1[j]).result
        = ConnectResult.sshError (some DISC_KEY_EXCHANGE_FAILED) msg →
      (((retry_connect oracle ip_address timeoutStr
          max_retries).1[j]).attempt < max_retries →
        ((retry_connect oracle ip_address timeoutStr
          max_retries).1[j]).sleptAfter = some 0) ∧
      (∀ k (hk : k < (retry_connect oracle ip_address timeoutStr
          max_retries).1.length), j < k →
        ((retry_connect oracle ip_address timeoutStr
          max_retries).1[k]).optsUsed = emptyAlgorithmOptions)) ∧
    ((retry_connect kexThenSuccess ip_address timeoutStr 1).2
        = RetryOutcome.connected 1 ∧
      (retry_connect kexThenSuccess ip_address timeoutStr 1).1.map
          AttemptRecord.optsUsed
        = [initialAlgorithmOptions, emptyAlgorithmOptions] ∧
      (retry_connect kexThenSuccess ip_address timeoutStr 1).1.map
          AttemptRecord.sleptAfter
        = [some 0, none]) := by
  refine ⟨?_, rfl, rfl, rfl⟩
  intro j hj msg hres
  exact retryConnectGo_kexInvariant oracle max_retries ip_address timeoutStr
    (max_retries + 1) 0 initialAlgorithmOptions none j hj msg hres

/-- Witness for C3: `[key-exchange-failure, success]` with `max_retries = 1`
returns the connection from the second attempt, the second attempt is made
with no encryption or MAC algorithm restriction, and the sleep before it
is zero. -/
theorem retry_connect_kex_relaxation_witness :
    (retry_connect kexThenSuccess "10.0.0.1" "0.1" 1).2
        = RetryOutcome.connected 1 ∧
    (retry_connect kexThenSuccess "10.0.0.1" "0.1" 1).1.map
        AttemptRecord.optsUsed
      = [initialAlgorithmOptions, emptyAlgorithmOptions] ∧
    (retry_connect kexThenSuccess "10.0.0.1" "0.1" 1).1.map
        AttemptRecord.sleptAfter
      = [some 0, none] :=
  ⟨(retry_connect_kex_relaxation kexThenSuccess "10.0.0.1" "0.1" 1).2.1,
   (retry_connect_kex_relaxation kexThenSuccess "10.0.0.1" "0.1" 1).2.2.1,
   (retry_connect_kex_relaxation kexThenSuccess "10.0.0.1" "0.1" 1).2.2.2⟩
